import Mathlib

/-!
Verification of the metrics instrumentation subsystem of the
`go-lynx/lynx-mongodb` plugin (file `prometheus.go`), as a shallow
embedding in Lean 4.

The embedding translates the Go source:
* `bson.Raw` reply payloads become the inductive `BsonRaw`: an empty
  payload, an undecodable payload, or a decoded document whose numeric
  fields default to 0 when absent (the zero value `bson.Unmarshal`
  leaves in the struct) and whose `cursor` sub-document is optional.
* `extractDocumentsFromReply`, `mapCommandNameToOperation` and
  `buildLabels` become pure Lean functions.
* The mutable Prometheus instruments become an explicit `MetricsState`
  record (each instrument keyed by its label values), and the event
  handlers installed by `CreateCommandMonitor` / `CreatePoolMonitor`
  become state-transition functions.
* Go `nil` pointers become `Option`.
-/

namespace LynxMongo

/-- The decoded shape `extractDocumentsFromReply` unmarshals a reply into:
numeric counter fields (absent fields decode to the zero value 0) and an
optional cursor sub-document carrying two batches of documents.  Documents
inside a batch are opaque (`Unit`); only the batch lengths matter. -/
structure CursorDoc where
  firstBatch : List Unit
  nextBatch : List Unit
  deriving Repr, DecidableEq

/-- The top-level decoded reply struct from `extractDocumentsFromReply`
(fields `n`, `nModified`, `nInserted`, `nRemoved`, `nDropped`, `cursor`). -/
structure ReplyDoc where
  n : Int
  nModified : Int
  nInserted : Int
  nRemoved : Int
  nDropped : Int
  cursor : Option CursorDoc
  deriving Repr, DecidableEq

/-- A raw BSON reply payload as seen by `extractDocumentsFromReply`:
either empty (`len(reply) == 0`, which also covers a nil `bson.Raw`),
undecodable (`bson.Unmarshal` returns an error), or a decodable payload
together with the struct it decodes to. -/
inductive BsonRaw where
  | empty : BsonRaw
  | malformed : BsonRaw
  | valid : ReplyDoc → BsonRaw
  deriving Repr, DecidableEq

/-- Embedding of `extractDocumentsFromReply(reply bson.Raw, cmdName string) int64`
(prometheus.go lines 305-344).  The command name is accepted but unused,
exactly as in the source. -/
def extractDocumentsFromReply (reply : BsonRaw) (_cmdName : String) : Int :=
  match reply with
  | .empty => 0
  | .malformed => 0
  | .valid doc =>
    if doc.n ≠ 0 then doc.n
    else if doc.nModified ≠ 0 then doc.nModified
    else if doc.nInserted ≠ 0 then doc.nInserted
    else if doc.nRemoved ≠ 0 then doc.nRemoved
    else
      match doc.cursor with
      | some c =>
        if c.firstBatch.length > 0 then (c.firstBatch.length : Int)
        else if c.nextBatch.length > 0 then (c.nextBatch.length : Int)
        else 0
      | none => 0

/-- The extraction policy as the specification words it: the first
non-zero value in the priority order `n`, `nModified`, `nInserted`,
`nRemoved`, length of `cursor.firstBatch`, length of `cursor.nextBatch`,
and otherwise 0 (an absent cursor contributes zero-length batches; an
empty or undecodable payload yields 0). -/
def extractSpecPriority (reply : BsonRaw) : Int :=
  match reply with
  | .empty => 0
  | .malformed => 0
  | .valid doc =>
    let fb : Int := match doc.cursor with
      | some c => (c.firstBatch.length : Int)
      | none => 0
    let nb : Int := match doc.cursor with
      | some c => (c.nextBatch.length : Int)
      | none => 0
    let candidates : List Int := [doc.n, doc.nModified, doc.nInserted, doc.nRemoved, fb, nb]
    match candidates.find? (fun v => v ≠ 0) with
    | some v => v
    | none => 0

/-- Embedding of `mapCommandNameToOperation(cmdName string) string`
(prometheus.go lines 287-302). -/
def mapCommandNameToOperation (cmdName : String) : String :=
  match cmdName with
  | "find" | "findOne" => "find"
  | "insert" | "insertOne" | "insertMany" => "insert"
  | "update" | "updateOne" | "updateMany" => "update"
  | "delete" | "deleteOne" | "deleteMany" | "remove" => "delete"
  | "aggregate" => "aggregate"
  | _ => cmdName

/-- A `ReplyDoc` whose fields are all absent (the zero value the Go
struct starts from before `bson.Unmarshal` fills it). -/
def emptyReplyDoc : ReplyDoc :=
  { n := 0, nModified := 0, nInserted := 0, nRemoved := 0, nDropped := 0, cursor := none }

end LynxMongo

namespace LynxMongo

/-- The non-negativity side condition under which the extractor is
non-negative: every numeric counter field the extractor may return is
non-negative (batch lengths are always non-negative). -/
def ReplyNonNegFields : BsonRaw → Prop
  | .empty => True
  | .malformed => True
  | .valid doc => 0 ≤ doc.n ∧ 0 ≤ doc.nModified ∧ 0 ≤ doc.nInserted ∧ 0 ≤ doc.nRemoved

end LynxMongo

namespace LynxMongo

/-- A successor of a natural number, cast to `Int`, is non-zero
(stated at the level of `decide` so matches on it reduce). -/
theorem decide_natCast_succ_eq_zero (k : Nat) :
    decide ((k : Int) + 1 = 0) = false := by
  simp only [decide_eq_false_iff_not]
  omega

/-- C1: for every reply payload and command name the extractor returns
the first non-zero value in the priority order `n`, `nModified`,
`nInserted`, `nRemoved`, `|cursor.firstBatch|`, `|cursor.nextBatch|`,
otherwise 0; in particular `{n: 5}` yields 5, `{nInserted: 3}` yields 3,
a two-document `firstBatch` yields 2, an empty/absent reply yields 0 for
every command name, and `n: 0` next to a non-empty batch falls through
to the batch length. -/
theorem c1_extract_priority :
    (∀ (reply : BsonRaw) (cmd : String),
        extractDocumentsFromReply reply cmd = extractSpecPriority reply)
    ∧ extractDocumentsFromReply (.valid { emptyReplyDoc with n := 5 }) "update" = 5
    ∧ extractDocumentsFromReply (.valid { emptyReplyDoc with nInserted := 3 }) "insert" = 3
    ∧ extractDocumentsFromReply
        (.valid { emptyReplyDoc with cursor := some ⟨[(), ()], []⟩ }) "find" = 2
    ∧ (∀ cmd, extractDocumentsFromReply .empty cmd = 0)
    ∧ (∀ cmd, extractDocumentsFromReply
        (.valid { emptyReplyDoc with n := 0, cursor := some ⟨[(), ()], []⟩ }) cmd = 2) := by
  refine ⟨?_, by decide, by decide, by decide, fun cmd => rfl, fun cmd => rfl⟩
  intro reply cmd
  cases reply with
  | empty => rfl
  | malformed => rfl
  | valid doc =>
    rcases doc with ⟨n, nM, nI, nR, nD, cursor⟩
    cases cursor with
    | none =>
      simp only [extractDocumentsFromReply, extractSpecPriority, List.find?]
      split_ifs <;> simp_all
    | some c =>
      rcases c with ⟨fb, nb⟩
      simp only [extractDocumentsFromReply, extractSpecPriority, List.find?]
      split_ifs <;> cases fb <;> cases nb <;>
        simp_all [decide_natCast_succ_eq_zero]

/-- C3: the classifier maps `find`/`findOne` to "find", the insert
variants to "insert", the update variants to "update", the delete
variants and `remove` to "delete", `aggregate` to itself, and every
other command name to itself unchanged, case-exactly. -/
theorem c3_classifier_spec :
    mapCommandNameToOperation "find" = "find"
    ∧ mapCommandNameToOperation "findOne" = "find"
    ∧ mapCommandNameToOperation "insert" = "insert"
    ∧ mapCommandNameToOperation "insertOne" = "insert"
    ∧ mapCommandNameToOperation "insertMany" = "insert"
    ∧ mapCommandNameToOperation "update" = "update"
    ∧ mapCommandNameToOperation "updateOne" = "update"
    ∧ mapCommandNameToOperation "updateMany" = "update"
    ∧ mapCommandNameToOperation "delete" = "delete"
    ∧ mapCommandNameToOperation "deleteOne" = "delete"
    ∧ mapCommandNameToOperation "deleteMany" = "delete"
    ∧ mapCommandNameToOperation "remove" = "delete"
    ∧ mapCommandNameToOperation "aggregate" = "aggregate"
    ∧ ∀ s : String,
        s ∉ (["find", "findOne", "insert", "insertOne", "insertMany",
              "update", "updateOne", "updateMany",
              "delete", "deleteOne", "deleteMany", "remove",
              "aggregate"] : List String) →
        mapCommandNameToOperation s = s := by
  refine ⟨rfl, rfl, rfl, rfl, rfl, rfl, rfl, rfl, rfl, rfl, rfl, rfl, rfl, ?_⟩
  intro s hs
  unfold mapCommandNameToOperation
  split <;> simp_all

/-- C3 witness: the theorem applied at the concrete unlisted command
name "collStats", which classifies to itself. -/
theorem c3_classifier_spec_witness :
    mapCommandNameToOperation "collStats" = "collStats" :=
  c3_classifier_spec.2.2.2.2.2.2.2.2.2.2.2.2.2 "collStats" (by decide)

/-- C7 counterexample: the claim "the extractor returns a non-negative
integer for every reply" is false: a decodable reply carrying `n: -1`
makes the extractor return −1. -/
theorem c7_extract_negative_counterexample :
    extractDocumentsFromReply (.valid { emptyReplyDoc with n := -1 }) "update" < 0 := by
  decide

/-- C7 (amended): for every reply whose numeric counter fields `n`,
`nModified`, `nInserted`, `nRemoved` are non-negative — in particular
every reply a well-behaved server produces — and every command name, the
extractor returns a non-negative integer. -/
theorem c7_extract_nonneg :
    ∀ (reply : BsonRaw) (cmd : String), ReplyNonNegFields reply →
      0 ≤ extractDocumentsFromReply reply cmd := by
  intro reply cmd h
  cases reply with
  | empty => simp [extractDocumentsFromReply]
  | malformed => simp [extractDocumentsFromReply]
  | valid doc =>
    rcases doc with ⟨n, nM, nI, nR, nD, cursor⟩
    obtain ⟨h1, h2, h3, h4⟩ := h
    cases cursor with
    | none =>
      simp only [extractDocumentsFromReply]
      split_ifs <;> simp_all
    | some c =>
      simp only [extractDocumentsFromReply]
      split_ifs <;> simp_all

/-- C7 witness: the amended theorem applied at the concrete reply
`{n: 5}` with command name "update". -/
theorem c7_extract_nonneg_witness :
    0 ≤ extractDocumentsFromReply (.valid { emptyReplyDoc with n := 5 }) "update" :=
  c7_extract_nonneg (.valid { emptyReplyDoc with n := 5 }) "update" (by constructor <;> simp [emptyReplyDoc])

/-- C8: an empty/absent payload and an undecodable payload both make
the extractor return 0, for every command name; the extractor is a total
function into `Int` and signals no error. -/
theorem c8_extract_degraded_zero :
    (∀ cmd, extractDocumentsFromReply .empty cmd = 0)
    ∧ (∀ cmd, extractDocumentsFromReply .malformed cmd = 0) :=
  ⟨fun _ => rfl, fun _ => rfl⟩

end LynxMongo

namespace LynxMongo

/-- The fields of `conf.MongoDB` the metrics subsystem reads:
`Database` (label value) and `MaxPoolSize` (published as a gauge). -/
structure MongoDBConf where
  Database : String
  MaxPoolSize : Int
  deriving Repr, DecidableEq

/-- Embedding of `PrometheusConfig` (prometheus.go lines 36-40). -/
structure PrometheusConfig where
  Namespace : String
  Subsystem : String
  Labels : List (String × String)
  deriving Repr, DecidableEq

/-- Embedding of `prometheus.BuildFQName`: joins the non-empty parts of
namespace, subsystem and name with `_` (empty name gives the empty
string), producing the fully-qualified metric name under which an
instrument is registered. -/
def buildFQName (ns sub name : String) : String :=
  if name = "" then ""
  else if ns ≠ "" ∧ sub ≠ "" then ns ++ "_" ++ sub ++ "_" ++ name
  else if ns ≠ "" then ns ++ "_" ++ name
  else if sub ≠ "" then sub ++ "_" ++ name
  else name

/-- The base names of the ten instruments `NewPrometheusMetrics`
registers, in `MustRegister` order (prometheus.go lines 157-168). -/
def instrumentNames : List String :=
  ["connection_pool_active", "connection_pool_max", "active_connections",
   "operations_total", "query_duration_seconds", "errors_total",
   "documents_processed_total", "health_check_total",
   "health_check_success_total", "health_check_failure_total"]

/-- A `prometheus.Registry` holding the fully-qualified names of the
instruments registered into it, in registration order. -/
structure RegistryModel where
  registeredNames : List String
  deriving Repr, DecidableEq

/-- `MustRegister` panics exactly when two instruments collide on their
fully-qualified name; registration succeeds iff all names are distinct. -/
def registrationSucceeds (r : RegistryModel) : Prop :=
  r.registeredNames.Nodup

/-- The observable result of `NewPrometheusMetrics`: the namespace and
subsystem every instrument is created with, and the backing registry
(`nil`-able, like the Go `*prometheus.Registry` field). -/
structure PrometheusMetricsModel where
  namespaceUsed : String
  subsystemUsed : String
  registry : Option RegistryModel
  deriving Repr, DecidableEq

/-- Embedding of `NewPrometheusMetrics(config *PrometheusConfig)`
(prometheus.go lines 47-171): a nil config is replaced by
`{Namespace: "lynx", Subsystem: "mongodb"}`; then an empty `Subsystem`
field (only that field) is defaulted to "mongodb"; all ten instruments
are created under the resulting namespace/subsystem and registered. -/
def NewPrometheusMetrics (config : Option PrometheusConfig) : PrometheusMetricsModel :=
  let c : PrometheusConfig :=
    match config with
    | none => { Namespace := "lynx", Subsystem := "mongodb", Labels := [] }
    | some c0 => c0
  let c : PrometheusConfig :=
    if c.Subsystem = "" then { c with Subsystem := "mongodb" } else c
  { namespaceUsed := c.Namespace
    subsystemUsed := c.Subsystem
    registry := some { registeredNames :=
      instrumentNames.map (buildFQName c.Namespace c.Subsystem) } }

/-- The values of every instrument of the registry, each keyed by its
label values ("database", and additionally "operation" for the two
command-level instruments).  Histogram state is the ordered list of
observed values; counters and gauges are numbers. -/
structure MetricsState where
  connectionPoolActive : String → Int
  connectionPoolMax : String → Int
  activeConnections : String → Int
  operationsTotal : String → String → Nat
  queryDuration : String → String → List ℚ
  errorsTotal : String → Nat
  documentsProcessed : String → Int
  healthCheckTotal : String → Nat
  healthCheckSuccess : String → Nat
  healthCheckFailure : String → Nat

/-- Fresh instruments: every counter 0, every gauge 0, every histogram
with no observations. -/
def initialMetricsState : MetricsState :=
  { connectionPoolActive := fun _ => 0
    connectionPoolMax := fun _ => 0
    activeConnections := fun _ => 0
    operationsTotal := fun _ _ => 0
    queryDuration := fun _ _ => []
    errorsTotal := fun _ => 0
    documentsProcessed := fun _ => 0
    healthCheckTotal := fun _ => 0
    healthCheckSuccess := fun _ => 0
    healthCheckFailure := fun _ => 0 }

/-- Increment a database-keyed counter at one key. -/
def incAt (f : String → Nat) (k : String) : String → Nat :=
  fun d => if d = k then f d + 1 else f d

/-- Add to a database-keyed counter at one key. -/
def addAt (f : String → Int) (k : String) (v : Int) : String → Int :=
  fun d => if d = k then f d + v else f d

/-- Set a database-keyed gauge at one key. -/
def setAt (f : String → Int) (k : String) (v : Int) : String → Int :=
  fun d => if d = k then v else f d

/-- Increment a (database, operation)-keyed counter at one key pair. -/
def incAt2 (f : String → String → Nat) (db op : String) : String → String → Nat :=
  fun d o => if d = db ∧ o = op then f d o + 1 else f d o

/-- Observe a value into a (database, operation)-keyed histogram. -/
def observeAt (f : String → String → List ℚ) (db op : String) (v : ℚ) :
    String → String → List ℚ :=
  fun d o => if d = db ∧ o = op then f d o ++ [v] else f d o

/-- Embedding of `buildLabels` (prometheus.go lines 270-276): the
"database" label value is the configured database name, or "test" when
the config is nil or its database name is empty. -/
def buildLabels (cfg : Option MongoDBConf) : String :=
  match cfg with
  | some cfg => if cfg.Database ≠ "" then cfg.Database else "test"
  | none => "test"

/-- Embedding of `UpdateConfigMetrics` (prometheus.go lines 240-246):
no-op when receiver or config is nil, otherwise sets the
`connection_pool_max` gauge at the built label to `cfg.MaxPoolSize`. -/
def UpdateConfigMetrics (m : Option PrometheusMetricsModel)
    (cfg : Option MongoDBConf) (s : MetricsState) : MetricsState :=
  match m, cfg with
  | some _, some cfg =>
    { s with connectionPoolMax :=
        setAt s.connectionPoolMax (buildLabels (some cfg)) cfg.MaxPoolSize }
  | _, _ => s

/-- Embedding of `RecordHealthCheck` (prometheus.go lines 249-260):
no-op when receiver or config is nil, otherwise increments
`health_check_total` and exactly one of `health_check_success_total` /
`health_check_failure_total` at the built label. -/
def RecordHealthCheck (m : Option PrometheusMetricsModel) (success : Bool)
    (cfg : Option MongoDBConf) (s : MetricsState) : MetricsState :=
  match m, cfg with
  | some _, some cfg =>
    let db := buildLabels (some cfg)
    let s1 := { s with healthCheckTotal := incAt s.healthCheckTotal db }
    if success then
      { s1 with healthCheckSuccess := incAt s1.healthCheckSuccess db }
    else
      { s1 with healthCheckFailure := incAt s1.healthCheckFailure db }
  | _, _ => s

/-- Embedding of `GetGatherer` (prometheus.go lines 263-268): nil when
the receiver or its registry is nil, otherwise the registry. -/
def GetGatherer (m : Option PrometheusMetricsModel) : Option RegistryModel :=
  match m with
  | none => none
  | some m => m.registry

end LynxMongo

namespace LynxMongo

/-- Appending on the left is cancellable for strings. -/
theorem string_append_left_cancel {p a b : String} (h : p ++ a = p ++ b) : a = b := by
  have hd := congrArg String.data h
  simp only [String.data_append] at hd
  exact String.ext (List.append_cancel_left hd)

/-- For non-empty instrument names, distinct base names give distinct
fully-qualified names under any fixed namespace/subsystem. -/
theorem buildFQName_inj_nonempty (ns sub : String) {a b : String}
    (ha : a ≠ "") (hb : b ≠ "") (h : buildFQName ns sub a = buildFQName ns sub b) :
    a = b := by
  unfold buildFQName at h
  rw [if_neg ha, if_neg hb] at h
  split_ifs at h
  · exact string_append_left_cancel h
  · exact string_append_left_cancel h
  · exact string_append_left_cancel h
  · exact h

/-- The fully-qualified names of the ten instruments are pairwise
distinct under any namespace/subsystem. -/
theorem registeredNames_nodup (ns sub : String) :
    (instrumentNames.map (buildFQName ns sub)).Nodup := by
  have hne : ∀ x ∈ instrumentNames, x ≠ "" := by decide
  refine List.Nodup.map_on ?_ (by decide)
  intro a ha b hb h
  exact buildFQName_inj_nonempty ns sub (hne a ha) (hne b hb) h

end LynxMongo

namespace LynxMongo

/-- C2 counterexample: constructing the registry with a non-nil but
all-fields-empty configuration does not fall back to namespace "lynx" —
the namespace stays empty (only the subsystem is defaulted). -/
theorem c2_empty_config_namespace_counterexample :
    (NewPrometheusMetrics
        (some { Namespace := "", Subsystem := "", Labels := [] })).namespaceUsed ≠ "lynx" := by
  decide

/-- C2 (amended): an absent configuration falls back to namespace
"lynx" and subsystem "mongodb"; an empty (all-fields-unset)
configuration falls back to subsystem "mongodb" only, keeping the empty
namespace; and for every configuration each of the ten listed
instruments is registered exactly once and registration succeeds. -/
theorem c2_registry_construction :
    (NewPrometheusMetrics none).namespaceUsed = "lynx"
    ∧ (NewPrometheusMetrics none).subsystemUsed = "mongodb"
    ∧ (NewPrometheusMetrics
        (some { Namespace := "", Subsystem := "", Labels := [] })).namespaceUsed = ""
    ∧ (NewPrometheusMetrics
        (some { Namespace := "", Subsystem := "", Labels := [] })).subsystemUsed = "mongodb"
    ∧ ∀ config : Option PrometheusConfig, ∃ r : RegistryModel,
        (NewPrometheusMetrics config).registry = some r
        ∧ registrationSucceeds r
        ∧ r.registeredNames.length = instrumentNames.length
        ∧ ∀ name ∈ instrumentNames,
            r.registeredNames.count
              (buildFQName (NewPrometheusMetrics config).namespaceUsed
                (NewPrometheusMetrics config).subsystemUsed name) = 1 := by
  refine ⟨rfl, rfl, rfl, rfl, ?_⟩
  intro config
  refine ⟨⟨instrumentNames.map (buildFQName (NewPrometheusMetrics config).namespaceUsed (NewPrometheusMetrics config).subsystemUsed)⟩, ?_, ?_, ?_, ?_⟩
  · cases config with
    | none => rfl
    | some c0 =>
      by_cases h : c0.Subsystem = "" <;> simp [NewPrometheusMetrics, h]
  · exact registeredNames_nodup _ _
  · simp
  · intro name hname
    exact List.count_eq_one_of_mem (registeredNames_nodup _ _) (List.mem_map_of_mem _ hname)

/-- C2 witness: the amended theorem applied at the absent configuration
and the concrete instrument name "operations_total". -/
theorem c2_registry_construction_witness :
    ∃ r : RegistryModel,
      (NewPrometheusMetrics none).registry = some r
      ∧ registrationSucceeds r
      ∧ r.registeredNames.length = instrumentNames.length
      ∧ r.registeredNames.count
          (buildFQName (NewPrometheusMetrics none).namespaceUsed
            (NewPrometheusMetrics none).subsystemUsed "operations_total") = 1 := by
  obtain ⟨r, h1, h2, h3, h4⟩ := c2_registry_construction.2.2.2.2 none
  exact ⟨r, h1, h2, h3, h4 "operations_total" (by decide)⟩

end LynxMongo

namespace LynxMongo

/-- The fields of `event.CommandStartedEvent` the monitor reads. -/
structure CommandStartedEvent where
  RequestID : Int
  CommandName : String
  deriving Repr, DecidableEq

/-- The fields of `event.CommandSucceededEvent` the monitor reads
(duration modelled in seconds, as `evt.Duration.Seconds()` yields). -/
structure CommandSucceededEvent where
  RequestID : Int
  CommandName : String
  DurationSeconds : ℚ
  Reply : BsonRaw
  deriving Repr, DecidableEq

/-- The fields of `event.CommandFailedEvent` the monitor reads. -/
structure CommandFailedEvent where
  RequestID : Int
  CommandName : String
  DurationSeconds : ℚ
  deriving Repr, DecidableEq

/-- `sync.Map.Store(key, struct{}{})` on a set of request IDs. -/
def storeKey (l : List Int) (k : Int) : List Int :=
  if k ∈ l then l else k :: l

/-- `sync.Map.Delete(key)` on a set of request IDs. -/
def deleteKey (l : List Int) (k : Int) : List Int :=
  l.filter (fun x => x ≠ k)

/-- The state a command monitor acts on: the shared instruments plus
the `startedCmds` correlation map (request IDs of in-flight commands). -/
structure CommandMonitorState where
  metrics : MetricsState
  startedCmds : List Int

/-- The `Started` handler installed by `CreateCommandMonitor`
(prometheus.go lines 182-184): records the request ID. -/
def commandStarted (evt : CommandStartedEvent) (s : CommandMonitorState) :
    CommandMonitorState :=
  { s with startedCmds := storeKey s.startedCmds evt.RequestID }

/-- The `Succeeded` handler installed by `CreateCommandMonitor`
(prometheus.go lines 185-199), with `db` the label value captured at
creation: increments `operations_total` and observes the duration at
(database, operation); adds the extracted reply count to
`documents_processed_total` at (database) when positive; deletes the
pending request ID. -/
def commandSucceeded (db : String) (evt : CommandSucceededEvent)
    (s : CommandMonitorState) : CommandMonitorState :=
  let op := mapCommandNameToOperation evt.CommandName
  let n := extractDocumentsFromReply evt.Reply evt.CommandName
  let ms := s.metrics
  let ms := { ms with
    operationsTotal := incAt2 ms.operationsTotal db op
    queryDuration := observeAt ms.queryDuration db op evt.DurationSeconds }
  let ms := if n > 0
    then { ms with documentsProcessed := addAt ms.documentsProcessed db n }
    else ms
  { metrics := ms, startedCmds := deleteKey s.startedCmds evt.RequestID }

/-- The `Failed` handler installed by `CreateCommandMonitor`
(prometheus.go lines 200-210): increments `operations_total` and
observes the duration at (database, operation), increments
`errors_total` at (database), extracts nothing from a reply, and
deletes the pending request ID. -/
def commandFailed (db : String) (evt : CommandFailedEvent)
    (s : CommandMonitorState) : CommandMonitorState :=
  let op := mapCommandNameToOperation evt.CommandName
  let ms := s.metrics
  let ms := { ms with
    operationsTotal := incAt2 ms.operationsTotal db op
    queryDuration := observeAt ms.queryDuration db op evt.DurationSeconds
    errorsTotal := incAt ms.errorsTotal db }
  { metrics := ms, startedCmds := deleteKey s.startedCmds evt.RequestID }

/-- The monitor value `CreateCommandMonitor` returns: its three
handlers are `commandStarted`, `commandSucceeded db` and
`commandFailed db`, where `db` is the label value captured from the
config at creation time. -/
structure CommandMonitorModel where
  db : String
  deriving Repr, DecidableEq

/-- Embedding of `CreateCommandMonitor` (prometheus.go lines 174-212):
nil when the receiver or the config is nil, otherwise a monitor whose
handlers close over the labels built from the config. -/
def CreateCommandMonitor (m : Option PrometheusMetricsModel)
    (cfg : Option MongoDBConf) : Option CommandMonitorModel :=
  match m, cfg with
  | some _, some cfg => some { db := buildLabels (some cfg) }
  | _, _ => none

/-- `event.GetSucceeded`: the pool event type emitted when a
connection is checked out of the pool. -/
def GetSucceeded : String := "ConnectionCheckedOut"

/-- `event.ConnectionReturned`: the pool event type emitted when a
connection is checked back into the pool. -/
def ConnectionReturned : String := "ConnectionCheckedIn"

/-- The state a pool monitor acts on: the shared instruments plus the
caller-supplied `activeCount` int64. -/
structure PoolMonitorState where
  metrics : MetricsState
  activeCount : Int

/-- The `Event` handler installed by `CreatePoolMonitor`
(prometheus.go lines 221-236): on `GetSucceeded` increments
`activeCount`, reads it back and sets both occupancy gauges to it; on
`ConnectionReturned` the same with a decrement; every other event type
is ignored. -/
def poolEventHandler (db : String) (evtType : String) (s : PoolMonitorState) :
    PoolMonitorState :=
  if evtType = GetSucceeded then
    let c := s.activeCount + 1
    { activeCount := c
      metrics := { s.metrics with
        connectionPoolActive := setAt s.metrics.connectionPoolActive db c
        activeConnections := setAt s.metrics.activeConnections db c } }
  else if evtType = ConnectionReturned then
    let c := s.activeCount - 1
    { activeCount := c
      metrics := { s.metrics with
        connectionPoolActive := setAt s.metrics.connectionPoolActive db c
        activeConnections := setAt s.metrics.activeConnections db c } }
  else s

/-- The monitor value `CreatePoolMonitor` returns: its handler is
`poolEventHandler db` with `db` captured at creation time. -/
structure PoolMonitorModel where
  db : String
  deriving Repr, DecidableEq

/-- Embedding of `CreatePoolMonitor` (prometheus.go lines 215-237):
nil when the receiver, the config or the `activeCount` pointer is nil,
otherwise a monitor whose handler closes over the built labels. -/
def CreatePoolMonitor (m : Option PrometheusMetricsModel)
    (cfg : Option MongoDBConf) (activeCount : Option Int) :
    Option PoolMonitorModel :=
  match m, cfg, activeCount with
  | some _, some cfg, some _ => some { db := buildLabels (some cfg) }
  | _, _, _ => none

/-- Running the pool event handler over a sequence of events. -/
def runPoolEvents (db : String) (evts : List String) (s : PoolMonitorState) :
    PoolMonitorState :=
  evts.foldl (fun st e => poolEventHandler db e st) s

/-- The occupancy delta one pool event contributes: +1 for an acquire,
−1 for a return, 0 for any other event type. -/
def poolDelta (e : String) : Int :=
  if e = GetSucceeded then 1 else if e = ConnectionReturned then -1 else 0

/-- Running occupancy sum of a pool event sequence. -/
def poolPartialSum (evts : List String) : Int :=
  (evts.map poolDelta).sum

/-- N acquire events followed by M return events. -/
def acquireReleaseSeq (N M : Nat) : List String :=
  List.replicate N GetSucceeded ++ List.replicate M ConnectionReturned

/-- The pool monitor state before any event: fresh instruments and an
occupancy counter starting at 0. -/
def initPoolState : PoolMonitorState :=
  { metrics := initialMetricsState, activeCount := 0 }

/-- Running `RecordHealthCheck` over a sequence of probe outcomes. -/
def runHealthChecks (m : Option PrometheusMetricsModel)
    (cfg : Option MongoDBConf) (results : List Bool) (s : MetricsState) :
    MetricsState :=
  results.foldl (fun st b => RecordHealthCheck m b cfg st) s

end LynxMongo

namespace LynxMongo

/-- Both occupancy gauges agree with the shared counter at label `db`. -/
def PoolSynced (db : String) (s : PoolMonitorState) : Prop :=
  s.metrics.connectionPoolActive db = s.activeCount
  ∧ s.metrics.activeConnections db = s.activeCount

/-- One pool event keeps the gauges synced with the counter and moves
the counter by the event's occupancy delta. -/
theorem poolEventHandler_step (db e : String) (s : PoolMonitorState)
    (h : PoolSynced db s) :
    PoolSynced db (poolEventHandler db e s)
    ∧ (poolEventHandler db e s).activeCount = s.activeCount + poolDelta e := by
  obtain ⟨h1, h2⟩ := h
  unfold poolEventHandler poolDelta PoolSynced
  split_ifs <;> simp_all [setAt] <;> omega

/-- Running any pool event sequence keeps the gauges synced with the
counter and moves the counter by the sequence's occupancy sum. -/
theorem runPoolEvents_tracks (db : String) (evts : List String)
    (s : PoolMonitorState) (h : PoolSynced db s) :
    PoolSynced db (runPoolEvents db evts s)
    ∧ (runPoolEvents db evts s).activeCount = s.activeCount + poolPartialSum evts := by
  induction evts generalizing s with
  | nil =>
    refine ⟨h, ?_⟩
    simp [runPoolEvents, poolPartialSum]
  | cons e rest ih =>
    obtain ⟨hs, hc⟩ := poolEventHandler_step db e s h
    obtain ⟨ih1, ih2⟩ := ih (poolEventHandler db e s) hs
    have step : runPoolEvents db (e :: rest) s
        = runPoolEvents db rest (poolEventHandler db e s) := rfl
    refine ⟨step ▸ ih1, ?_⟩
    rw [step, ih2, hc]
    simp [poolPartialSum]
    ring

/-- The occupancy sum of N acquires followed by M returns is N − M. -/
theorem poolPartialSum_acquireReleaseSeq (N M : Nat) :
    poolPartialSum (acquireReleaseSeq N M) = (N : Int) - M := by
  unfold poolPartialSum acquireReleaseSeq
  have hg : poolDelta GetSucceeded = 1 := by decide
  have hr : poolDelta ConnectionReturned = -1 := by decide
  simp [List.map_replicate, List.sum_replicate, hg, hr]
  omega

end LynxMongo

namespace LynxMongo

/-- C5: starting from occupancy 0 and fresh gauges, after any pool
event sequence both occupancy gauges and the shared counter equal the
sequence's running occupancy sum (so in particular every intermediate
state during a sequence matches the partial sum at that point); the sum
of N acquires followed by M returns is N − M; and every pool event type
other than acquire/return leaves the state unchanged. -/
theorem c5_pool_occupancy :
    (∀ (db : String) (evts : List String),
        (runPoolEvents db evts initPoolState).metrics.connectionPoolActive db
            = poolPartialSum evts
        ∧ (runPoolEvents db evts initPoolState).metrics.activeConnections db
            = poolPartialSum evts
        ∧ (runPoolEvents db evts initPoolState).activeCount = poolPartialSum evts)
    ∧ (∀ N M : Nat, poolPartialSum (acquireReleaseSeq N M) = (N : Int) - M)
    ∧ (∀ (db e : String) (s : PoolMonitorState),
        e ≠ GetSucceeded → e ≠ ConnectionReturned → poolEventHandler db e s = s) := by
  refine ⟨?_, poolPartialSum_acquireReleaseSeq, ?_⟩
  · intro db evts
    obtain ⟨⟨h1, h2⟩, h3⟩ := runPoolEvents_tracks db evts initPoolState ⟨rfl, rfl⟩
    have h0 : initPoolState.activeCount = 0 := rfl
    rw [h0, zero_add] at h3
    exact ⟨h3 ▸ h1, h3 ▸ h2, h3⟩
  · intro db e s he1 he2
    unfold poolEventHandler
    rw [if_neg he1, if_neg he2]

/-- C5 witness: the theorem applied at label "test", the concrete
sequence of 2 acquires and 1 return (final occupancy 1), and the
concrete ignored event type "ConnectionCreated". -/
theorem c5_pool_occupancy_witness :
    (runPoolEvents "test" (acquireReleaseSeq 2 1) initPoolState).metrics.connectionPoolActive "test" = 1
    ∧ poolEventHandler "test" "ConnectionCreated" initPoolState = initPoolState := by
  constructor
  · have h := (c5_pool_occupancy.1 "test" (acquireReleaseSeq 2 1)).1
    rw [h, c5_pool_occupancy.2.1 2 1]
    decide
  · exact c5_pool_occupancy.2.2 "test" "ConnectionCreated" initPoolState
      (by decide) (by decide)

/-- C4: on a succeeded command, `operations_total` at (database,
classified operation) goes up by one, the duration is observed into
`query_duration_seconds` at the same labels, the extracted reply count
is added to `documents_processed_total` exactly when it is positive,
`errors_total` is untouched, and the pending request ID is removed; on
a failed command the same operation/duration updates happen,
`errors_total` goes up by one, `documents_processed_total` is untouched
(no extraction), and the pending request ID is removed. -/
theorem c4_command_monitor :
    (∀ (db : String) (evt : CommandSucceededEvent) (s : CommandMonitorState),
        (commandSucceeded db evt s).metrics.operationsTotal db
            (mapCommandNameToOperation evt.CommandName)
          = s.metrics.operationsTotal db (mapCommandNameToOperation evt.CommandName) + 1
        ∧ (commandSucceeded db evt s).metrics.queryDuration db
            (mapCommandNameToOperation evt.CommandName)
          = s.metrics.queryDuration db (mapCommandNameToOperation evt.CommandName)
              ++ [evt.DurationSeconds]
        ∧ (commandSucceeded db evt s).metrics.documentsProcessed db
          = (if 0 < extractDocumentsFromReply evt.Reply evt.CommandName
             then s.metrics.documentsProcessed db
                    + extractDocumentsFromReply evt.Reply evt.CommandName
             else s.metrics.documentsProcessed db)
        ∧ (commandSucceeded db evt s).metrics.errorsTotal = s.metrics.errorsTotal
        ∧ evt.RequestID ∉ (commandSucceeded db evt s).startedCmds)
    ∧ (∀ (db : String) (evt : CommandFailedEvent) (s : CommandMonitorState),
        (commandFailed db evt s).metrics.operationsTotal db
            (mapCommandNameToOperation evt.CommandName)
          = s.metrics.operationsTotal db (mapCommandNameToOperation evt.CommandName) + 1
        ∧ (commandFailed db evt s).metrics.queryDuration db
            (mapCommandNameToOperation evt.CommandName)
          = s.metrics.queryDuration db (mapCommandNameToOperation evt.CommandName)
              ++ [evt.DurationSeconds]
        ∧ (commandFailed db evt s).metrics.errorsTotal db = s.metrics.errorsTotal db + 1
        ∧ (commandFailed db evt s).metrics.documentsProcessed
          = s.metrics.documentsProcessed
        ∧ evt.RequestID ∉ (commandFailed db evt s).startedCmds) := by
  constructor
  · intro db evt s
    refine ⟨?_, ?_, ?_, ?_, ?_⟩ <;>
      simp [commandSucceeded, incAt2, observeAt, addAt, deleteKey] <;>
      split_ifs <;>
      simp_all [incAt2, observeAt, addAt, List.mem_filter]
  · intro db evt s
    refine ⟨?_, ?_, ?_, ?_, ?_⟩ <;>
      simp [commandFailed, incAt2, observeAt, incAt, deleteKey, List.mem_filter]

/-- C6: every instrumentation entry point called with a nil receiver,
nil configuration or nil counter pointer returns nil / leaves the
instrument state untouched (total functions: no panic, no error). -/
theorem c6_nil_safety :
    (∀ cfg, CreateCommandMonitor none cfg = none)
    ∧ (∀ m, CreateCommandMonitor m none = none)
    ∧ (∀ cfg ac, CreatePoolMonitor none cfg ac = none)
    ∧ (∀ m ac, CreatePoolMonitor m none ac = none)
    ∧ (∀ m cfg, CreatePoolMonitor m cfg none = none)
    ∧ (∀ cfg s, UpdateConfigMetrics none cfg s = s)
    ∧ (∀ m s, UpdateConfigMetrics m none s = s)
    ∧ (∀ b cfg s, RecordHealthCheck none b cfg s = s)
    ∧ (∀ m b s, RecordHealthCheck m b none s = s)
    ∧ GetGatherer none = none := by
  refine ⟨?_, ?_, ?_, ?_, ?_, ?_, ?_, ?_, ?_, rfl⟩
  · intro cfg
    cases cfg <;> rfl
  · intro m
    cases m <;> rfl
  · intro cfg ac
    cases cfg <;> cases ac <;> rfl
  · intro m ac
    cases m <;> cases ac <;> rfl
  · intro m cfg
    cases m <;> cases cfg <;> rfl
  · intro cfg s
    cases cfg <;> rfl
  · intro m s
    cases m <;> rfl
  · intro b cfg s
    cases cfg <;> rfl
  · intro m b s
    cases m <;> rfl

end LynxMongo

namespace LynxMongo

/-- Folding `RecordHealthCheck` over any outcome list adds the list's
length to the total counter and the number of `true` / `false` outcomes
to the success / failure counters, at the built label. -/
theorem runHealthChecks_counts (m : PrometheusMetricsModel) (cfg : MongoDBConf)
    (l : List Bool) (s : MetricsState) :
    (runHealthChecks (some m) (some cfg) l s).healthCheckTotal (buildLabels (some cfg))
        = s.healthCheckTotal (buildLabels (some cfg)) + l.length
    ∧ (runHealthChecks (some m) (some cfg) l s).healthCheckSuccess (buildLabels (some cfg))
        = s.healthCheckSuccess (buildLabels (some cfg)) + l.count true
    ∧ (runHealthChecks (some m) (some cfg) l s).healthCheckFailure (buildLabels (some cfg))
        = s.healthCheckFailure (buildLabels (some cfg)) + l.count false := by
  induction l generalizing s with
  | nil => simp [runHealthChecks]
  | cons b rest ih =>
    obtain ⟨i1, i2, i3⟩ := ih (RecordHealthCheck (some m) b (some cfg) s)
    have hT : (RecordHealthCheck (some m) b (some cfg) s).healthCheckTotal (buildLabels (some cfg))
        = s.healthCheckTotal (buildLabels (some cfg)) + 1 := by
      cases b <;> simp [RecordHealthCheck, incAt]
    have hS : (RecordHealthCheck (some m) b (some cfg) s).healthCheckSuccess (buildLabels (some cfg))
        = s.healthCheckSuccess (buildLabels (some cfg)) + (if b then 1 else 0) := by
      cases b <;> simp [RecordHealthCheck, incAt]
    have hF : (RecordHealthCheck (some m) b (some cfg) s).healthCheckFailure (buildLabels (some cfg))
        = s.healthCheckFailure (buildLabels (some cfg)) + (if b then 0 else 1) := by
      cases b <;> simp [RecordHealthCheck, incAt]
    have step : runHealthChecks (some m) (some cfg) (b :: rest) s
        = runHealthChecks (some m) (some cfg) rest (RecordHealthCheck (some m) b (some cfg) s) := rfl
    rw [step]
    refine ⟨?_, ?_, ?_⟩
    · rw [i1, hT, List.length_cons]
      omega
    · rw [i2, hS]
      cases b <;> simp [List.count_cons] <;> omega
    · rw [i3, hF]
      cases b <;> simp [List.count_cons] <;> omega

end LynxMongo

namespace LynxMongo

/-- C9: from fresh counters, N successful health checks followed by M
failed ones leave `health_check_total` = N+M, `health_check_success_total`
= N and `health_check_failure_total` = M at the built label; and each
single call increments the total counter by one and exactly the matching
one of the success/failure counters. -/
theorem c9_health_check :
    (∀ (N M : Nat) (m : PrometheusMetricsModel) (cfg : MongoDBConf),
        (runHealthChecks (some m) (some cfg)
            (List.replicate N true ++ List.replicate M false)
            initialMetricsState).healthCheckTotal (buildLabels (some cfg)) = N + M
        ∧ (runHealthChecks (some m) (some cfg)
            (List.replicate N true ++ List.replicate M false)
            initialMetricsState).healthCheckSuccess (buildLabels (some cfg)) = N
        ∧ (runHealthChecks (some m) (some cfg)
            (List.replicate N true ++ List.replicate M false)
            initialMetricsState).healthCheckFailure (buildLabels (some cfg)) = M)
    ∧ (∀ (m : PrometheusMetricsModel) (cfg : MongoDBConf) (b : Bool) (s : MetricsState),
        (RecordHealthCheck (some m) b (some cfg) s).healthCheckTotal (buildLabels (some cfg))
            = s.healthCheckTotal (buildLabels (some cfg)) + 1
        ∧ (RecordHealthCheck (some m) b (some cfg) s).healthCheckSuccess (buildLabels (some cfg))
            = s.healthCheckSuccess (buildLabels (some cfg)) + (if b then 1 else 0)
        ∧ (RecordHealthCheck (some m) b (some cfg) s).healthCheckFailure (buildLabels (some cfg))
            = s.healthCheckFailure (buildLabels (some cfg)) + (if b then 0 else 1)) := by
  constructor
  · intro N M m cfg
    obtain ⟨h1, h2, h3⟩ := runHealthChecks_counts m cfg
      (List.replicate N true ++ List.replicate M false) initialMetricsState
    refine ⟨?_, ?_, ?_⟩ <;>
      simp_all [initialMetricsState, List.count_append, List.count_replicate]
  · intro m cfg b s
    cases b <;> simp [RecordHealthCheck, incAt]

/-- C10: with a non-nil configuration whose database name is empty, the
"database" label value is the literal "test": `buildLabels` yields
"test", both monitor constructors capture "test", `UpdateConfigMetrics`
writes the pool-max gauge at "test", and `RecordHealthCheck` bumps the
total counter at "test". -/
theorem c10_empty_database_label :
    ∀ cfg : MongoDBConf, cfg.Database = "" →
      buildLabels (some cfg) = "test"
      ∧ (∀ m : PrometheusMetricsModel,
          CreateCommandMonitor (some m) (some cfg) = some { db := "test" })
      ∧ (∀ (m : PrometheusMetricsModel) (ac : Int),
          CreatePoolMonitor (some m) (some cfg) (some ac) = some { db := "test" })
      ∧ (∀ (m : PrometheusMetricsModel) (s : MetricsState),
          (UpdateConfigMetrics (some m) (some cfg) s).connectionPoolMax "test"
            = cfg.MaxPoolSize)
      ∧ (∀ (m : PrometheusMetricsModel) (b : Bool) (s : MetricsState),
          (RecordHealthCheck (some m) b (some cfg) s).healthCheckTotal "test"
            = s.healthCheckTotal "test" + 1) := by
  intro cfg hdb
  have hb : buildLabels (some cfg) = "test" := by
    simp [buildLabels, hdb]
  refine ⟨hb, ?_, ?_, ?_, ?_⟩
  · intro m
    simp [CreateCommandMonitor, hb]
  · intro m ac
    simp [CreatePoolMonitor, hb]
  · intro m s
    simp [UpdateConfigMetrics, hb, setAt]
  · intro m b s
    cases b <;> simp [RecordHealthCheck, hb, incAt]

/-- C10 witness: the theorem applied at the concrete configuration with
an empty database name and max pool size 100. -/
theorem c10_empty_database_label_witness :
    buildLabels (some { Database := "", MaxPoolSize := 100 }) = "test" :=
  (c10_empty_database_label { Database := "", MaxPoolSize := 100 } rfl).1

end LynxMongo
